import Mathlib

/-
  Verification development for the `e_sell` accounts app
  (apps/accounts/models.py): user accounts, role profiles
  (FarmerProfile / BuyerProfile), addresses, and the signal-driven
  profile provisioning.  Django model instances are embedded as Lean
  structures; the database is embedded as lists of records; overridden
  `save` methods and `post_save` signal receivers are embedded as pure
  state-transformers on that database.  `Decimal` amounts are modelled
  as rationals, `PositiveIntegerField`s as naturals.
-/

set_option maxHeartbeats 1000000

namespace ESell

/-- An `accounts.Address` row (the fields relevant to saving:
identity, owning user, the address text fields and the flags). -/
structure Address where
  id : Nat
  user : Nat
  address_type : String
  title : String
  address_line_1 : String
  address_line_2 : String
  city : String
  state : String
  postal_code : String
  country : String
  is_default : Bool
  is_active : Bool
deriving DecidableEq

/-- `Address.save`: if this address is set as default, first run
`Address.objects.filter(user=self.user, is_default=True).update(is_default=False)`
(clear the flag on every persisted default address of the same user),
then `super().save()` persists the record itself (update the row with
the same primary key if present, otherwise insert). -/
def addressSave (db : List Address) (a : Address) : List Address :=
  let db1 :=
    if a.is_default then
      db.map (fun b =>
        if b.user == a.user && b.is_default then { b with is_default := false } else b)
    else db
  if db1.any (fun b => b.id == a.id) then
    db1.map (fun b => if b.id == a.id then a else b)
  else
    db1 ++ [a]

lemma mem_clear_default {db : List Address} {a b : Address}
    (hb : b ∈ db.map (fun c =>
      if c.user == a.user && c.is_default then { c with is_default := false } else c))
    (hu : b.user = a.user) : b.is_default = false := by
  rcases List.mem_map.mp hb with ⟨c, _, rfl⟩
  by_cases h : (c.user == a.user && c.is_default) = true
  · simp [h]
  · rw [if_neg h] at hu ⊢
    by_cases hd : c.is_default = true
    · exact absurd (by simp [hu, hd]) h
    · simpa using hd

/-- C1: saving an address A with `is_default = true` first clears
`is_default` on every other address of the same account and then
persists A, so that afterwards A is present and is the only address of
that account with `is_default = true`, regardless of the prior state. -/
theorem address_save_default_exclusive (db : List Address) (a : Address)
    (hdef : a.is_default = true) :
    a ∈ addressSave db a ∧
      ∀ b ∈ addressSave db a, b.user = a.user → b.is_default = true → b = a := by
  unfold addressSave
  rw [if_pos hdef]
  set cleared := db.map (fun b =>
    if b.user == a.user && b.is_default then { b with is_default := false } else b) with hc
  by_cases hany : cleared.any (fun b => b.id == a.id) = true
  · rw [if_pos hany]
    constructor
    · rcases List.any_eq_true.mp hany with ⟨c, hcmem, hcid⟩
      exact List.mem_map.mpr ⟨c, hcmem, by simp [hcid]⟩
    · intro b hb hu hd
      rcases List.mem_map.mp hb with ⟨c, hcmem, rfl⟩
      by_cases hid : (c.id == a.id) = true
      · simp [hid]
      · exfalso
        simp only [hid, if_neg, Bool.not_eq_true] at hu hd ⊢
        have : c.is_default = false := mem_clear_default (hc ▸ hcmem) (by simpa using hu)
        simp [this] at hd
  · rw [if_neg hany]
    refine ⟨List.mem_append.mpr (Or.inr (by simp)), ?_⟩
    intro b hb hu hd
    rcases List.mem_append.mp hb with hbl | hbr
    · exfalso
      have : b.is_default = false := mem_clear_default (hc ▸ hbl) hu
      simp [this] at hd
    · simpa using hbr

/-- C1 witness: a concrete database where another address of the same
user was default before the save. -/
theorem address_save_default_exclusive_witness :
    (⟨2, 7, "home", "B", "x", "", "c", "s", "p", "India", true, true⟩ : Address) ∈
        addressSave
          [⟨1, 7, "home", "A", "x", "", "c", "s", "p", "India", true, true⟩]
          ⟨2, 7, "home", "B", "x", "", "c", "s", "p", "India", true, true⟩ ∧
      ∀ b ∈ addressSave
          [⟨1, 7, "home", "A", "x", "", "c", "s", "p", "India", true, true⟩]
          ⟨2, 7, "home", "B", "x", "", "c", "s", "p", "India", true, true⟩,
        b.user = (⟨2, 7, "home", "B", "x", "", "c", "s", "p", "India", true, true⟩ : Address).user →
        b.is_default = true →
        b = ⟨2, 7, "home", "B", "x", "", "c", "s", "p", "India", true, true⟩ :=
  address_save_default_exclusive
    [⟨1, 7, "home", "A", "x", "", "c", "s", "p", "India", true, true⟩]
    ⟨2, 7, "home", "B", "x", "", "c", "s", "p", "India", true, true⟩ rfl

/-- C8: saving an address with `is_default = false` leaves every other
address row of the database (in particular every other address of the
same account, and its `is_default` flag) unchanged: no other address is
promoted to default. -/
theorem address_save_nondefault_frame (db : List Address) (a : Address)
    (hdef : a.is_default = false) :
    (addressSave db a).filter (fun b => b.id != a.id) =
      db.filter (fun b => b.id != a.id) := by
  unfold addressSave
  rw [if_neg (show ¬ a.is_default = true by simp [hdef])]
  by_cases hany : db.any (fun b => b.id == a.id) = true
  · rw [if_pos hany]
    clear hany
    induction db with
    | nil => rfl
    | cons h t ih =>
      by_cases hid : (h.id == a.id) = true
      · have hid' : h.id = a.id := by simpa using hid
        simp only [List.map_cons, List.filter_cons, hid', if_pos, beq_self_eq_true,
          bne_self_eq_false, Bool.false_eq_true, if_false, if_true]
        exact ih
      · have hid' : ¬ h.id = a.id := by simpa using hid
        simp only [List.map_cons, List.filter_cons, hid, if_neg, Bool.not_eq_true]
        rw [if_pos (show (h.id != a.id) = true by simp [bne, hid]), ih,
          if_pos (show (h.id != a.id) = true by simp [bne, hid])]
  · rw [if_neg hany]
    rw [List.filter_append]
    simp

/-- C8 witness: saving a non-default address next to an existing
default address leaves the default address untouched. -/
theorem address_save_nondefault_frame_witness :
    (addressSave
        [⟨1, 7, "home", "A", "x", "", "c", "s", "p", "India", true, true⟩]
        ⟨2, 7, "home", "B", "x", "", "c", "s", "p", "India", false, true⟩).filter
        (fun b => b.id != (2 : Nat)) =
      [⟨1, 7, "home", "A", "x", "", "c", "s", "p", "India", true, true⟩].filter
        (fun b => b.id != (2 : Nat)) :=
  address_save_nondefault_frame
    [⟨1, 7, "home", "A", "x", "", "c", "s", "p", "India", true, true⟩]
    ⟨2, 7, "home", "B", "x", "", "c", "s", "p", "India", false, true⟩ rfl

/-- An `accounts.User` row (identity, role tag, phone and the address
component fields; `country` has model default `'India'`). -/
structure User where
  id : Nat
  username : String
  user_type : String
  phone_number : String
  address_line_1 : String
  address_line_2 : String
  city : String
  state : String
  postal_code : String
  country : String
  is_verified : Bool
  verification_status : String
deriving DecidableEq

/-- Python `', '.join(parts)`: concatenation of the parts separated by
a comma and a space. -/
def joinComma : List String → String
  | [] => ""
  | [p] => p
  | p :: q :: rest => p ++ ", " ++ joinComma (q :: rest)

/-- `User.full_address`: join the non-empty address components
(Python string truthiness keeps exactly the parts different from `""`). -/
def fullAddress (u : User) : String :=
  joinComma ([u.address_line_1, u.address_line_2, u.city, u.state,
    u.postal_code, u.country].filter (fun p => p != ""))

/-- Python `x or y` on strings: `x` when `x` is truthy (non-empty),
otherwise `y`. -/
def pyOr (x y : String) : String :=
  if x = "" then y else x

/-- An `accounts.FarmerProfile` row (the fields set at provisioning
time together with the model-default fields). -/
structure FarmerProfile where
  user : Nat
  farm_name : String
  farm_size : String
  farm_size_acres : ℚ
  farming_type : String
  farming_experience_years : Nat
  farm_address : String
  organic_certified : Bool
  average_rating : ℚ
  total_reviews : Nat
  is_active_seller : Bool
  subscription_plan : String
deriving DecidableEq

/-- An `accounts.BuyerProfile` row. -/
structure BuyerProfile where
  user : Nat
  buyer_type : String
  company_name : String
  gst_number : String
  total_orders : Nat
  total_spent : ℚ
  average_order_value : ℚ
  loyalty_points : Nat
  membership_tier : String
  prefers_organic : Bool
  max_delivery_distance : Nat
deriving DecidableEq

/-- The FarmerProfile created by `create_user_profile`: the explicitly
passed arguments of `FarmerProfile.objects.create(...)`, and the model
defaults for every other field. -/
def mkFarmerCreated (inst : User) : FarmerProfile :=
  { user := inst.id
    farm_name := inst.username ++ "'s Farm"
    farm_size := "small"
    farm_size_acres := 1
    farming_type := "conventional"
    farming_experience_years := 1
    farm_address := pyOr (fullAddress inst) "Not specified"
    organic_certified := false
    average_rating := 0
    total_reviews := 0
    is_active_seller := true
    subscription_plan := "basic" }

/-- The BuyerProfile created by `BuyerProfile.objects.create(user=instance)`:
every field at its model default. -/
def mkBuyerDefault (inst : User) : BuyerProfile :=
  { user := inst.id
    buyer_type := "individual"
    company_name := ""
    gst_number := ""
    total_orders := 0
    total_spent := 0
    average_order_value := 0
    loyalty_points := 0
    membership_tier := "bronze"
    prefers_organic := false
    max_delivery_distance := 50 }

/-- The persisted state the provisioning signals act on. -/
structure DB where
  users : List User
  farmerProfiles : List FarmerProfile
  buyerProfiles : List BuyerProfile
deriving DecidableEq

/-- `hasattr(instance, 'farmer_profile')`: a farmer profile row for
this user exists. -/
def hasFarmerProfile (db : DB) (uid : Nat) : Bool :=
  db.farmerProfiles.any (fun p => p.user == uid)

/-- `hasattr(instance, 'buyer_profile')`: a buyer profile row for this
user exists. -/
def hasBuyerProfile (db : DB) (uid : Nat) : Bool :=
  db.buyerProfiles.any (fun p => p.user == uid)

/-- The `create_user_profile` post-save receiver: only on a creation
event (`created = True`), create a FarmerProfile for role `farmer`, a
BuyerProfile for roles `buyer`/`vendor`, and nothing otherwise. -/
def create_user_profile (db : DB) (inst : User) (created : Bool) : DB :=
  if created then
    if inst.user_type == "farmer" then
      { db with farmerProfiles := db.farmerProfiles ++ [mkFarmerCreated inst] }
    else if inst.user_type == "buyer" || inst.user_type == "vendor" then
      { db with buyerProfiles := db.buyerProfiles ++ [mkBuyerDefault inst] }
    else db
  else db

/-- The body of the `try` block of `save_user_profile`: when the
role-appropriate profile exists, persist its current in-memory state
(which in this embedding equals the stored state, so a successful write
leaves the database unchanged); `persistOk` abstracts whether the
underlying datastore write succeeds, and a failed write raises. -/
def try_save_profile (db : DB) (inst : User) (persistOk : Bool) :
    Except String DB :=
  if inst.user_type == "farmer" && hasFarmerProfile db inst.id then
    if persistOk then Except.ok db else Except.error "farmer profile save failed"
  else if (inst.user_type == "buyer" || inst.user_type == "vendor")
      && hasBuyerProfile db inst.id then
    if persistOk then Except.ok db else Except.error "buyer profile save failed"
  else
    Except.ok db

/-- The `save_user_profile` post-save receiver as seen by its caller:
the `try ... except Exception: pass` wrapper turns any error of the
body into a silent no-op. -/
def save_user_profile_exc (db : DB) (inst : User) (persistOk : Bool) :
    Except String DB :=
  match try_save_profile db inst persistOk with
  | Except.ok d => Except.ok d
  | Except.error _ => Except.ok db

/-- The resulting database state after the `save_user_profile` step. -/
def save_user_profile (db : DB) (inst : User) (persistOk : Bool) : DB :=
  match save_user_profile_exc db inst persistOk with
  | Except.ok d => d
  | Except.error _ => db

/-- A user row with this primary key is already persisted. -/
def userExists (db : DB) (uid : Nat) : Bool :=
  db.users.any (fun v => v.id == uid)

/-- `User.save()` together with the `post_save` signal dispatch: insert
or update the user row, then run `create_user_profile` with the
`created` flag (true exactly on the initial insert), then run
`save_user_profile`. -/
def saveUser (db : DB) (u : User) (persistOk : Bool) : DB :=
  let created := ! userExists db u.id
  let db1 :=
    if created then { db with users := db.users ++ [u] }
    else { db with users := db.users.map (fun v => if v.id == u.id then u else v) }
  let db2 := create_user_profile db1 u created
  save_user_profile db2 u persistOk

/-- The farmer profiles owned by a given account. -/
def farmerFor (db : DB) (uid : Nat) : List FarmerProfile :=
  db.farmerProfiles.filter (fun p => p.user == uid)

/-- The buyer profiles owned by a given account. -/
def buyerFor (db : DB) (uid : Nat) : List BuyerProfile :=
  db.buyerProfiles.filter (fun p => p.user == uid)

@[simp] lemma save_user_profile_eq (db : DB) (u : User) (pOk : Bool) :
    save_user_profile db u pOk = db := by
  rcases pOk with _ | _ <;>
    by_cases h1 : (u.user_type == "farmer" && hasFarmerProfile db u.id) = true <;>
    by_cases h2 : ((u.user_type == "buyer" || u.user_type == "vendor")
      && hasBuyerProfile db u.id) = true <;>
    simp [save_user_profile, save_user_profile_exc, try_save_profile, h1, h2]

/-- C2: on a creation event for a fresh account with role tag `farmer`,
the provisioning coordinator creates exactly one FarmerProfile for that
account, with farm name derived from the account's name, farm size
`small`, one year of experience, and farm address the account's
formatted full address, falling back to `"Not specified"` when that
address is empty. -/
theorem farmer_provisioning_on_create (db : DB) (u : User) (pOk : Bool)
    (hnew : userExists db u.id = false)
    (hnone : farmerFor db u.id = [])
    (hrole : u.user_type = "farmer") :
    farmerFor (saveUser db u pOk) u.id =
      [{ user := u.id
         farm_name := u.username ++ "'s Farm"
         farm_size := "small"
         farm_size_acres := 1
         farming_type := "conventional"
         farming_experience_years := 1
         farm_address := if fullAddress u = "" then "Not specified" else fullAddress u
         organic_certified := false
         average_rating := 0
         total_reviews := 0
         is_active_seller := true
         subscription_plan := "basic" }] := by
  have hstep : saveUser db u pOk =
      { users := db.users ++ [u]
        farmerProfiles := db.farmerProfiles ++ [mkFarmerCreated u]
        buyerProfiles := db.buyerProfiles } := by
    simp [saveUser, hnew, create_user_profile, hrole]
  rw [hstep]
  unfold farmerFor at hnone ⊢
  simp only [List.filter_append, hnone, List.nil_append]
  simp [mkFarmerCreated, pyOr]

/-- C2 witness: a fresh farmer account in an empty database. -/
theorem farmer_provisioning_on_create_witness :
    farmerFor
        (saveUser ⟨[], [], []⟩
          ⟨1, "ravi", "farmer", "+919876543210", "12 Main Rd", "", "Pune",
            "MH", "411001", "India", false, "pending"⟩ true) 1 =
      [{ user := 1
         farm_name := "ravi" ++ "'s Farm"
         farm_size := "small"
         farm_size_acres := 1
         farming_type := "conventional"
         farming_experience_years := 1
         farm_address :=
           if fullAddress ⟨1, "ravi", "farmer", "+919876543210", "12 Main Rd", "",
               "Pune", "MH", "411001", "India", false, "pending"⟩ = ""
           then "Not specified"
           else fullAddress ⟨1, "ravi", "farmer", "+919876543210", "12 Main Rd", "",
               "Pune", "MH", "411001", "India", false, "pending"⟩
         organic_certified := false
         average_rating := 0
         total_reviews := 0
         is_active_seller := true
         subscription_plan := "basic" }] :=
  farmer_provisioning_on_create ⟨[], [], []⟩
    ⟨1, "ravi", "farmer", "+919876543210", "12 Main Rd", "", "Pune",
      "MH", "411001", "India", false, "pending"⟩ true rfl rfl rfl

/-- C3: on a creation event for a fresh account, role tags `buyer` and
`vendor` yield exactly one BuyerProfile with every field at its model
default (in particular `total_orders = 0`), and role tag `admin` yields
no role profile at all. -/
theorem buyer_admin_provisioning_on_create (db : DB) (u : User) (pOk : Bool)
    (hnew : userExists db u.id = false) :
    ((u.user_type = "buyer" ∨ u.user_type = "vendor") → buyerFor db u.id = [] →
      buyerFor (saveUser db u pOk) u.id = [mkBuyerDefault u] ∧
        (mkBuyerDefault u).total_orders = 0) ∧
    (u.user_type = "admin" →
      (saveUser db u pOk).farmerProfiles = db.farmerProfiles ∧
        (saveUser db u pOk).buyerProfiles = db.buyerProfiles) := by
  constructor
  · intro hrole hnone
    have hstep : saveUser db u pOk =
        { users := db.users ++ [u]
          farmerProfiles := db.farmerProfiles
          buyerProfiles := db.buyerProfiles ++ [mkBuyerDefault u] } := by
      rcases hrole with hb | hv
      · simp [saveUser, hnew, create_user_profile, hb]
      · simp [saveUser, hnew, create_user_profile, hv]
    rw [hstep]
    unfold buyerFor at hnone ⊢
    simp only [List.filter_append, hnone, List.nil_append]
    simp [mkBuyerDefault]
  · intro hrole
    have hstep : saveUser db u pOk =
        { users := db.users ++ [u]
          farmerProfiles := db.farmerProfiles
          buyerProfiles := db.buyerProfiles } := by
      simp [saveUser, hnew, create_user_profile, hrole]
    rw [hstep]
    exact ⟨rfl, rfl⟩

/-- C3 witness: a fresh buyer account and a fresh admin account in an
empty database. -/
theorem buyer_admin_provisioning_on_create_witness :
    (buyerFor
        (saveUser ⟨[], [], []⟩
          ⟨2, "meena", "buyer", "+919812345678", "", "", "", "", "",
            "India", false, "pending"⟩ true) 2 =
      [mkBuyerDefault
        ⟨2, "meena", "buyer", "+919812345678", "", "", "", "", "",
          "India", false, "pending"⟩] ∧
      (mkBuyerDefault
        ⟨2, "meena", "buyer", "+919812345678", "", "", "", "", "",
          "India", false, "pending"⟩).total_orders = 0) ∧
    ((saveUser ⟨[], [], []⟩
        ⟨3, "root", "admin", "+919800000000", "", "", "", "", "",
          "India", false, "pending"⟩ true).farmerProfiles = [] ∧
      (saveUser ⟨[], [], []⟩
        ⟨3, "root", "admin", "+919800000000", "", "", "", "", "",
          "India", false, "pending"⟩ true).buyerProfiles = []) :=
  ⟨(buyer_admin_provisioning_on_create ⟨[], [], []⟩
      ⟨2, "meena", "buyer", "+919812345678", "", "", "", "", "",
        "India", false, "pending"⟩ true rfl).1 (Or.inl rfl) rfl,
   (buyer_admin_provisioning_on_create ⟨[], [], []⟩
      ⟨3, "root", "admin", "+919800000000", "", "", "", "", "",
        "India", false, "pending"⟩ true rfl).2 rfl⟩

/-- C4: the provisioning step is idempotent per account: a repeated
save of an already-persisted account fires the signal with
`created = False`, so no second profile is created — the profile tables
are left exactly as they were. -/
theorem provisioning_idempotent_on_resave (db : DB) (u : User) (pOk : Bool)
    (hex : userExists db u.id = true) :
    (saveUser db u pOk).farmerProfiles = db.farmerProfiles ∧
      (saveUser db u pOk).buyerProfiles = db.buyerProfiles := by
  have hstep : saveUser db u pOk =
      { users := db.users.map (fun v => if v.id == u.id then u else v)
        farmerProfiles := db.farmerProfiles
        buyerProfiles := db.buyerProfiles } := by
    simp [saveUser, hex, create_user_profile]
  rw [hstep]
  exact ⟨rfl, rfl⟩

/-- C4 witness: re-saving a farmer account that already has its
profile creates no duplicate. -/
theorem provisioning_idempotent_on_resave_witness :
    (saveUser
        ⟨[⟨1, "ravi", "farmer", "+919876543210", "12 Main Rd", "", "Pune",
            "MH", "411001", "India", false, "pending"⟩],
          [mkFarmerCreated
            ⟨1, "ravi", "farmer", "+919876543210", "12 Main Rd", "", "Pune",
              "MH", "411001", "India", false, "pending"⟩], []⟩
        ⟨1, "ravi", "farmer", "+919876543210", "12 Main Rd", "", "Pune",
          "MH", "411001", "India", true, "verified"⟩ true).farmerProfiles =
      [mkFarmerCreated
        ⟨1, "ravi", "farmer", "+919876543210", "12 Main Rd", "", "Pune",
          "MH", "411001", "India", false, "pending"⟩] ∧
    (saveUser
        ⟨[⟨1, "ravi", "farmer", "+919876543210", "12 Main Rd", "", "Pune",
            "MH", "411001", "India", false, "pending"⟩],
          [mkFarmerCreated
            ⟨1, "ravi", "farmer", "+919876543210", "12 Main Rd", "", "Pune",
              "MH", "411001", "India", false, "pending"⟩], []⟩
        ⟨1, "ravi", "farmer", "+919876543210", "12 Main Rd", "", "Pune",
          "MH", "411001", "India", true, "verified"⟩ true).buyerProfiles = [] :=
  provisioning_idempotent_on_resave
    ⟨[⟨1, "ravi", "farmer", "+919876543210", "12 Main Rd", "", "Pune",
        "MH", "411001", "India", false, "pending"⟩],
      [mkFarmerCreated
        ⟨1, "ravi", "farmer", "+919876543210", "12 Main Rd", "", "Pune",
          "MH", "411001", "India", false, "pending"⟩], []⟩
    ⟨1, "ravi", "farmer", "+919876543210", "12 Main Rd", "", "Pune",
      "MH", "411001", "India", true, "verified"⟩ true rfl

/-- C7: the profile re-save step never surfaces an error to its
caller: whatever the database, the account and the outcome of the
underlying write, the step returns normally, and when the body fails
the failure is swallowed and the database is left untouched. -/
theorem profile_resave_never_raises (db : DB) (u : User) (pOk : Bool) :
    (∃ d, save_user_profile_exc db u pOk = Except.ok d) ∧
    (∀ e, try_save_profile db u pOk = Except.error e →
      save_user_profile_exc db u pOk = Except.ok db) := by
  constructor
  · unfold save_user_profile_exc
    cases try_save_profile db u pOk with
    | ok d => exact ⟨d, rfl⟩
    | error e => exact ⟨db, rfl⟩
  · intro e he
    unfold save_user_profile_exc
    rw [he]

/-- C7 witness: a farmer account whose profile write fails: the error
is suppressed and the step completes with the database unchanged. -/
theorem profile_resave_never_raises_witness :
    save_user_profile_exc
        ⟨[⟨1, "ravi", "farmer", "+919876543210", "", "", "", "", "",
            "India", false, "pending"⟩],
          [mkFarmerCreated
            ⟨1, "ravi", "farmer", "+919876543210", "", "", "", "", "",
              "India", false, "pending"⟩], []⟩
        ⟨1, "ravi", "farmer", "+919876543210", "", "", "", "", "",
          "India", false, "pending"⟩ false =
      Except.ok
        ⟨[⟨1, "ravi", "farmer", "+919876543210", "", "", "", "", "",
            "India", false, "pending"⟩],
          [mkFarmerCreated
            ⟨1, "ravi", "farmer", "+919876543210", "", "", "", "", "",
              "India", false, "pending"⟩], []⟩ :=
  (profile_resave_never_raises
      ⟨[⟨1, "ravi", "farmer", "+919876543210", "", "", "", "", "",
          "India", false, "pending"⟩],
        [mkFarmerCreated
          ⟨1, "ravi", "farmer", "+919876543210", "", "", "", "", "",
            "India", false, "pending"⟩], []⟩
      ⟨1, "ravi", "farmer", "+919876543210", "", "", "", "", "",
        "India", false, "pending"⟩ false).2
    "farmer profile save failed" rfl

lemma length_zero_eq_empty {s : String} (h : s.length = 0) : s = "" := by
  cases s with
  | mk d =>
    cases d with
    | nil => rfl
    | cons c t => simp [String.length] at h

lemma joinComma_cons_ne_empty (h : String) (t : List String) (hh : ¬ h = "") :
    ¬ joinComma (h :: t) = "" := by
  cases t with
  | nil => simpa [joinComma] using hh
  | cons q r =>
    intro hcontra
    have hlen := congrArg String.length hcontra
    rw [show joinComma (h :: q :: r) = h ++ ", " ++ joinComma (q :: r) from rfl] at hlen
    simp only [String.length_append] at hlen
    rw [show String.length ", " = 2 from rfl,
      show String.length "" = 0 from rfl] at hlen
    exact hh (length_zero_eq_empty (by omega))

lemma joinComma_filter_eq_empty_iff (l : List String) :
    joinComma (l.filter (fun p => p != "")) = "" ↔ ∀ p ∈ l, p = "" := by
  induction l with
  | nil => simp [joinComma]
  | cons h t ih =>
    by_cases hh : h = ""
    · subst hh
      rw [List.filter_cons_of_neg (by simp)]
      simp only [ih]
      simp
    · rw [List.filter_cons_of_pos (by simp [bne, hh])]
      refine iff_of_false (joinComma_cons_ne_empty _ _ hh) ?_
      intro hall
      exact hh (hall h (List.mem_cons_self h t))

/-- C9: whenever the account's `country` component is non-empty (it
defaults to `'India'`), the formatted full address is non-empty and the
farmer-provisioning fallback therefore keeps the formatted address
rather than the `"Not specified"` placeholder; moreover the formatted
address is empty exactly when every address component, `country`
included, is empty. -/
theorem full_address_nonempty_of_country (u : User) :
    (u.country ≠ "" → fullAddress u ≠ "") ∧
    (u.country ≠ "" → pyOr (fullAddress u) "Not specified" = fullAddress u) ∧
    (fullAddress u = "" ↔
      u.address_line_1 = "" ∧ u.address_line_2 = "" ∧ u.city = "" ∧
        u.state = "" ∧ u.postal_code = "" ∧ u.country = "") := by
  have key : fullAddress u = "" ↔
      u.address_line_1 = "" ∧ u.address_line_2 = "" ∧ u.city = "" ∧
        u.state = "" ∧ u.postal_code = "" ∧ u.country = "" := by
    unfold fullAddress
    rw [joinComma_filter_eq_empty_iff]
    simp
  refine ⟨?_, ?_, key⟩
  · intro hc hfa
    exact hc (key.mp hfa).2.2.2.2.2
  · intro hc
    unfold pyOr
    rw [if_neg (fun hfa => hc (key.mp hfa).2.2.2.2.2)]

/-- C9 witness: an account whose only non-empty address component is
the default country keeps a non-empty formatted address and does not
fall back to the placeholder. -/
theorem full_address_nonempty_of_country_witness :
    fullAddress ⟨4, "asha", "farmer", "+919811111111", "", "", "", "", "",
        "India", false, "pending"⟩ ≠ "" ∧
      pyOr
          (fullAddress ⟨4, "asha", "farmer", "+919811111111", "", "", "", "", "",
            "India", false, "pending"⟩) "Not specified" =
        fullAddress ⟨4, "asha", "farmer", "+919811111111", "", "", "", "", "",
          "India", false, "pending"⟩ :=
  ⟨(full_address_nonempty_of_country
      ⟨4, "asha", "farmer", "+919811111111", "", "", "", "", "",
        "India", false, "pending"⟩).1 (by decide),
   (full_address_nonempty_of_country
      ⟨4, "asha", "farmer", "+919811111111", "", "", "", "", "",
        "India", false, "pending"⟩).2.1 (by decide)⟩

/-- `BuyerProfile.update_purchase_stats(order_amount)`: increment the
order count, add the amount to the total spent, recompute the average
as the new total divided by the new count (then persist). -/
def update_purchase_stats (p : BuyerProfile) (order_amount : ℚ) : BuyerProfile :=
  let orders := p.total_orders + 1
  let spent := p.total_spent + order_amount
  { p with
    total_orders := orders
    total_spent := spent
    average_order_value := spent / (orders : ℚ) }

/-- The purchase-statistics invariant: once any order is recorded, the
average order value is the total spent divided by the order count. -/
def statsInv (p : BuyerProfile) : Prop :=
  0 < p.total_orders →
    p.average_order_value = p.total_spent / (p.total_orders : ℚ)

/-- The BuyerProfile states reachable through the public operations:
creation with the model defaults and `update_purchase_stats`. -/
inductive ReachableBuyer : BuyerProfile → Prop
  | created (u : User) : ReachableBuyer (mkBuyerDefault u)
  | updated (p : BuyerProfile) (a : ℚ) :
      ReachableBuyer p → ReachableBuyer (update_purchase_stats p a)

/-- C5: every reachable BuyerProfile state satisfies the
purchase-statistics invariant, and `update_purchase_stats`
re-establishes it from any starting state and any order amount. -/
theorem purchase_stats_invariant :
    (∀ p, ReachableBuyer p → statsInv p) ∧
    (∀ p a, statsInv (update_purchase_stats p a)) := by
  have hstep : ∀ p a, statsInv (update_purchase_stats p a) := by
    intro p a _
    simp [update_purchase_stats]
  refine ⟨?_, hstep⟩
  intro p hp
  induction hp with
  | created u =>
    intro h
    simp [mkBuyerDefault] at h
  | updated q a _ _ => exact hstep q a

/-- C5 witness: the invariant holds at the state reached from a fresh
default profile by one recorded order of amount 5. -/
theorem purchase_stats_invariant_witness :
    (update_purchase_stats
        (mkBuyerDefault ⟨2, "meena", "buyer", "+919812345678", "", "", "", "", "",
          "India", false, "pending"⟩) 5).average_order_value =
      (update_purchase_stats
          (mkBuyerDefault ⟨2, "meena", "buyer", "+919812345678", "", "", "", "", "",
            "India", false, "pending"⟩) 5).total_spent /
        ((update_purchase_stats
            (mkBuyerDefault ⟨2, "meena", "buyer", "+919812345678", "", "", "", "", "",
              "India", false, "pending"⟩) 5).total_orders : ℚ) :=
  purchase_stats_invariant.1 _
    (ReachableBuyer.updated _ 5
      (ReachableBuyer.created
        ⟨2, "meena", "buyer", "+919812345678", "", "", "", "", "",
          "India", false, "pending"⟩))
    (by decide)

/-- C6: `update_purchase_stats` increments the order count by one,
adds the amount to the total spent and recomputes the average as the
new quotient; in particular a profile at (2 orders, 100 spent) updated
with amount 50 ends at (3 orders, 150 spent, average 50). -/
theorem update_purchase_stats_spec :
    (∀ (p : BuyerProfile) (a : ℚ),
      (update_purchase_stats p a).total_orders = p.total_orders + 1 ∧
      (update_purchase_stats p a).total_spent = p.total_spent + a ∧
      (update_purchase_stats p a).average_order_value =
        (p.total_spent + a) / ((p.total_orders + 1 : Nat) : ℚ)) ∧
    update_purchase_stats
        { user := 2, buyer_type := "individual", company_name := "", gst_number := "",
          total_orders := 2, total_spent := 100, average_order_value := 50,
          loyalty_points := 0, membership_tier := "bronze", prefers_organic := false,
          max_delivery_distance := 50 } 50 =
      { user := 2, buyer_type := "individual", company_name := "", gst_number := "",
        total_orders := 3, total_spent := 150, average_order_value := 50,
        loyalty_points := 0, membership_tier := "bronze", prefers_organic := false,
        max_delivery_distance := 50 } := by
  refine ⟨fun p a => ⟨rfl, rfl, rfl⟩, ?_⟩
  simp only [update_purchase_stats, BuyerProfile.mk.injEq]
  norm_num

/-- The character class `[6-9]` of the phone validator regex. -/
def matchSixNine (c : Char) : Bool :=
  decide ('6' ≤ c) && decide (c ≤ '9')

/-- The anchored core `[6-9]\d{9}` of the phone validator regex,
matched against a whole character list: a first character in `6`–`9`
followed by exactly nine decimal digits. -/
def matchCore : List Char → Bool
  | [] => false
  | c :: rest => matchSixNine c && (rest.length == 9) && rest.all Char.isDigit

/-- The alternative of the optional group taken: the characters `+91`
followed by the core, matched against the whole character list. -/
def matchWithPre : List Char → Bool
  | c1 :: c2 :: c3 :: rest => c1 == '+' && c2 == '9' && c3 == '1' && matchCore rest
  | _ => false

/-- `User.phone_regex`: whether the anchored regular expression
`^(?:\+91)?[6-9]\d{9}$` accepts the whole string (the optional
non-capturing group taken or not). -/
def phone_regex_accepts (s : String) : Bool :=
  matchCore s.toList || matchWithPre s.toList

/-- The language described by the claim: ten decimal digits whose
first digit is in `6`–`9`, optionally preceded by the prefix `+91`. -/
def phoneClaimSpec (s : String) : Prop :=
  ∃ core : List Char,
    (s.toList = core ∨ s.toList = '+' :: '9' :: '1' :: core) ∧
    core.length = 10 ∧
    (∀ c ∈ core, c.isDigit = true) ∧
    ∃ c0 rest, core = c0 :: rest ∧ '6' ≤ c0 ∧ c0 ≤ '9'

lemma matchCore_eq_true_iff (l : List Char) :
    matchCore l = true ↔
      (l.length = 10 ∧ (∀ c ∈ l, c.isDigit = true) ∧
        ∃ c0 rest, l = c0 :: rest ∧ '6' ≤ c0 ∧ c0 ≤ '9') := by
  cases l with
  | nil => simp [matchCore]
  | cons c rest =>
    simp only [matchCore, matchSixNine, Bool.and_eq_true, decide_eq_true_eq,
      beq_iff_eq, List.all_eq_true, List.length_cons]
    constructor
    · rintro ⟨⟨⟨h6, h9⟩, hlen⟩, hall⟩
      have hcdig : c.isDigit = true := by
        simp only [Char.isDigit, Bool.and_eq_true, decide_eq_true_eq]
        exact ⟨le_trans (show ('0' : Char) ≤ '6' by decide) h6, h9⟩
      refine ⟨by omega, ?_, c, rest, rfl, h6, h9⟩
      intro x hx
      rcases List.mem_cons.mp hx with rfl | hx'
      · exact hcdig
      · exact hall x hx'
    · rintro ⟨hlen, hall, c0, r, heq, h6, h9⟩
      obtain ⟨rfl, rfl⟩ : c = c0 ∧ rest = r := by
        injection heq with h1 h2
        exact ⟨h1, h2⟩
      exact ⟨⟨⟨h6, h9⟩, by omega⟩, fun x hx => hall x (List.mem_cons_of_mem _ hx)⟩

lemma matchWithPre_eq_true_iff (l : List Char) :
    matchWithPre l = true ↔
      ∃ rest, l = '+' :: '9' :: '1' :: rest ∧ matchCore rest = true := by
  rcases l with _ | ⟨c1, _ | ⟨c2, _ | ⟨c3, rest⟩⟩⟩
  · simp [matchWithPre]
  · simp [matchWithPre]
  · simp [matchWithPre]
  · simp only [matchWithPre, Bool.and_eq_true, beq_iff_eq]
    constructor
    · rintro ⟨⟨⟨rfl, rfl⟩, rfl⟩, hm⟩
      exact ⟨rest, rfl, hm⟩
    · rintro ⟨r, heq, hm⟩
      injection heq with h1 heq
      injection heq with h2 heq
      injection heq with h3 heq
      subst h1; subst h2; subst h3; subst heq
      exact ⟨⟨⟨rfl, rfl⟩, rfl⟩, hm⟩

/-- C10: the phone validator accepts exactly the strings of ten
decimal digits whose first digit is in `6`–`9`, optionally preceded by
`+91`, and rejects everything else — in particular, contrary to its
error message, it rejects a plain 15-digit number. -/
theorem phone_regex_characterization :
    (∀ s, phone_regex_accepts s = true ↔ phoneClaimSpec s) ∧
    phone_regex_accepts "999999999999999" = false := by
  constructor
  · intro s
    unfold phone_regex_accepts phoneClaimSpec
    rw [Bool.or_eq_true, matchCore_eq_true_iff, matchWithPre_eq_true_iff]
    constructor
    · rintro (⟨hlen, hall, c0, r, heq, h6, h9⟩ | ⟨rest, hpre, hm⟩)
      · exact ⟨s.toList, Or.inl rfl, hlen, hall, c0, r, heq, h6, h9⟩
      · rcases (matchCore_eq_true_iff rest).mp hm with ⟨hlen, hall, c0, r, heq, h6, h9⟩
        exact ⟨rest, Or.inr hpre, hlen, hall, c0, r, heq, h6, h9⟩
    · rintro ⟨core, hs | hs, hlen, hall, c0, r, heq, h6, h9⟩
      · left
        rw [hs]
        exact ⟨hlen, hall, c0, r, heq, h6, h9⟩
      · right
        exact ⟨core, hs, (matchCore_eq_true_iff core).mpr ⟨hlen, hall, c0, r, heq, h6, h9⟩⟩
  · decide

/-- C10 witness: the characterization applied at a concrete accepted
number. -/
theorem phone_regex_characterization_witness :
    phoneClaimSpec "9876543210" :=
  (phone_regex_characterization.1 "9876543210").mp (by decide)

end ESell
